import Mathlib

/-!
Shallow embedding of the dioxus `#[component]` signature-lowering transform
(`packages/core-macro/src/component.rs`) and of the virtual-node event-handler
model (`packages/core/src/nodes/element.rs`), together with proofs of the
spec's testable properties about them.

Conventions of the embedding:
* `syn` spans become plain naturals (`Span`); token streams and opaque Rust
  fragments (types, bodies, rendered patterns) become strings.
* A Rust `panic!` / `unreachable!` is modelled as `Option.none`, so functions
  whose Rust originals can panic return `Option`.
* Interior mutability (`Cell`, `RefCell`) becomes explicit state: a cell is an
  `Option` field, and an `FnMut` callback is a state transformer `E → S → S`.
-/

namespace Dioxus

/-- Source location attached to syn tokens; an abstract token position. -/
abbrev Span := Nat

/-- Embedding of the `syn::Pat` cases the transform distinguishes:
`Pat::Ident` (with its mutability flag and name), `Pat::Struct` (record
pattern, kept as rendered path and fields), and everything else rendered
opaquely. -/
inductive Pat where
  | ident (mutability : Bool) (name : String)
  | structPat (path : String) (fields : String)
  | other (code : String)
deriving DecidableEq

/-- Embedding of `syn::PatType`: attributes, pattern and declared type of a
typed function argument. The type is kept as its rendered text. -/
structure PatType where
  attrs : List String
  pat : Pat
  ty : String
deriving DecidableEq

/-- Embedding of `syn::FnArg`: either a receiver (`self`-style) argument
carrying its span, or a typed pattern argument. -/
inductive FnArg where
  | receiver (span : Span)
  | typed (pt : PatType)
deriving DecidableEq

/-- Embedding of `syn::ReturnType`: `Default` (no `->` written) or an explicit
rendered type. -/
inductive ReturnType where
  | default
  | ty (t : String)
deriving DecidableEq

/-- Embedding of `syn::Generics` at the granularity the transform uses: how
many lifetime parameters there are (`generics.lifetimes().count()`), the span
of the generics, the rendered type-parameter list (`ty_generics`), and the
optional rendered where-clause. -/
structure Generics where
  lifetimeCount : Nat
  span : Span
  params : String
  whereClause : Option String
deriving DecidableEq

/-- Embedding of `syn::Signature`: constness and asyncness keep only the
token span when present; `inputsSpan` is `sig.inputs.span()` and `outputSpan`
is `sig.output.span()`. -/
structure Signature where
  constness : Option Span
  asyncness : Option Span
  ident : String
  generics : Generics
  inputs : List FnArg
  inputsSpan : Span
  output : ReturnType
  outputSpan : Span
deriving DecidableEq

/-- Embedding of `syn::ItemFn`: attributes, visibility, signature and the
opaque body block. -/
structure ItemFn where
  attrs : List String
  vis : String
  sig : Signature
  block : String
deriving DecidableEq

/-- Embedding of `syn::Error`: a diagnostic message attached to a span. -/
structure SynError where
  span : Span
  message : String
deriving DecidableEq

/-- Does this argument match `FnArg::Receiver(_)`? -/
def isReceiverArg : FnArg → Bool
  | .receiver _ => true
  | .typed _ => false

/-- Embedding of `validate_component_fn_signature`: the five sequential
checks of `component.rs`, each producing its own message at the violating
span. -/
def validate_component_fn_signature (f : ItemFn) : Except SynError Unit :=
  if f.sig.output = ReturnType.default then
    Except.error { span := f.sig.outputSpan, message := "Must return a <dioxus_core::Element>" }
  else if f.sig.generics.lifetimeCount > 0 then
    Except.error { span := f.sig.generics.span, message := "Lifetimes are not supported in components" }
  else
    match f.sig.asyncness with
    | some sp => Except.error { span := sp, message := "Async components are not supported" }
    | none =>
      match f.sig.constness with
      | some sp => Except.error { span := sp, message := "Const components are not supported" }
      | none =>
        if f.sig.inputs.any isReceiverArg then
          Except.error { span := f.sig.inputsSpan, message := "Receiver parameters are not supported" }
        else
          Except.ok ()

/-- Embedding of `ComponentBody::is_explicit_props_ident`: the first input is
a typed `Pat::Ident` whose identifier is literally `props`. -/
def is_explicit_props_ident (cb : ItemFn) : Bool :=
  match cb.sig.inputs.head? with
  | some (.typed pt) =>
    match pt.pat with
    | .ident _ name => name == "props"
    | _ => false
  | _ => false

/-- Embedding of `ComponentBody::has_struct_parameter_pattern`: the first
input is a typed `Pat::Struct` pattern. -/
def has_struct_parameter_pattern (cb : ItemFn) : Bool :=
  match cb.sig.inputs.head? with
  | some (.typed pt) =>
    match pt.pat with
    | .structPat _ _ => true
    | _ => false
  | _ => false

/-- Render a pattern back to tokens, as `quote! \x7b #a \x7d` does. -/
def renderPat : Pat → String
  | .ident true name => "mut " ++ name
  | .ident false name => name
  | .structPat path fields => path ++ " \x7b " ++ fields ++ " \x7d"
  | .other code => code

/-- Strip the `mut` modifier off an identifier pattern, leave other patterns
unchanged (`pat_ident.mutability = None`). -/
def stripIdentMut : Pat → Pat
  | .ident _ n => .ident false n
  | p => p

/-- Collect a list of fallible results, propagating the first failure — the
embedding of mapping a panicking closure over an iterator and collecting. -/
def traverseOption (g : A → Option B) : List A → Option (List B)
  | [] => some []
  | a :: as => do
    let b ← g a
    let bs ← traverseOption g as
    pure (b :: bs)

/-- A field of the generated props struct: carried-over attributes, the
function's visibility, the rendered field pattern (the binding name once
mutability is stripped) and the declared type. -/
structure Field where
  attrs : List String
  vis : String
  pat : String
  ty : String
deriving DecidableEq

/-- Embedding of the generated `ItemStruct`: its derive list, visibility,
identifier, generics and fields. -/
structure ItemStruct where
  derives : List String
  vis : String
  ident : String
  generics : Generics
  fields : List Field
deriving DecidableEq

/-- Embedding of `make_prop_struct_field`. The Rust function hits
`unreachable!()` on a receiver argument, modelled as `none`. For a
`Pat::Ident` pattern the mutability is ripped off and the bare name becomes
the field; any other pattern is rendered as-is. -/
def make_prop_struct_field (f : FnArg) (vis : String) : Option Field :=
  match f with
  | .receiver _ => none
  | .typed pt =>
    let arg_pat :=
      match pt.pat with
      | .ident _ name => name
      | a => renderPat a
    some { attrs := pt.attrs, vis := vis, pat := arg_pat, ty := pt.ty }

/-- Embedding of `ComponentBody::props_struct`: one field per input, the
struct named `{fn}Props`, deriving `Props, Clone, PartialEq`, reusing the
function's generics and visibility. `none` models the receiver panic. -/
def props_struct (cb : ItemFn) : Option ItemStruct := do
  let fields ← traverseOption (fun f => make_prop_struct_field f cb.vis) cb.sig.inputs
  pure { derives := ["Props", "Clone", "PartialEq"],
         vis := cb.vis,
         ident := cb.sig.ident ++ "Props",
         generics := cb.sig.generics,
         fields := fields }

/-- One binding of the `let {fn}Props \x7b ... \x7d = __props;` destructuring
statement: whether a `mut` keyword is written before the pattern, and the
pattern itself (mutability already stripped from ident patterns). -/
structure Binding where
  mutKeyword : Bool
  pat : Pat
deriving DecidableEq

/-- Embedding of `rebind_mutability`: rips the mutability off an ident
pattern, then writes the binding back with a `mut` keyword
(`Some(quote!(mut #pat))`). The receiver case is `unreachable!()` in Rust,
modelled as `none`. -/
def rebind_mutability (f : FnArg) : Option Binding :=
  match f with
  | .receiver _ => none
  | .typed pt => some { mutKeyword := true, pat := stripIdentMut pt.pat }

/-- The synthesized `mut __props: {fn}Props {generics}` parameter of the
rewritten function. -/
structure PropsArg where
  mutable : Bool
  name : String
  ty : String
deriving DecidableEq

/-- The `let {fn}Props \x7b bindings \x7d = __props;` statement of the
rewritten body. -/
structure Destructure where
  structIdent : String
  bindings : List Binding
deriving DecidableEq

/-- Embedding of the rewritten function `comp_fn` emits: original attributes
plus `allow(non_snake_case)`, the original visibility / name / generics /
output, an optional synthesized props argument, the zero-sized marker struct
declared inside the body, the optional destructuring statement, and the
original body block. -/
structure CompFn where
  attrs : List String
  vis : String
  ident : String
  generics : Generics
  output : ReturnType
  propsArg : Option PropsArg
  marker : String
  destructure : Option Destructure
  block : String
deriving DecidableEq

/-- Embedding of `ComponentBody::comp_fn`: build the rewritten function. When
the input list is empty both the props argument and the destructuring are
omitted; otherwise the argument is `mut __props: {fn}Props {ty_generics}` and
the destructuring rebinds every field. `none` models the receiver panic
inside `rebind_mutability`. -/
def comp_fn (cb : ItemFn) : Option CompFn := do
  let struct_ident := cb.sig.ident ++ "Props"
  let struct_field_names ← traverseOption rebind_mutability cb.sig.inputs
  let propsArg : Option PropsArg :=
    if cb.sig.inputs.isEmpty then none
    else some { mutable := true, name := "__props", ty := struct_ident ++ cb.sig.generics.params }
  let destructure : Option Destructure :=
    if cb.sig.inputs.isEmpty then none
    else some { structIdent := struct_ident, bindings := struct_field_names }
  pure { attrs := cb.attrs ++ ["allow(non_snake_case)"],
         vis := cb.vis,
         ident := cb.sig.ident,
         generics := cb.sig.generics,
         output := cb.sig.output,
         propsArg := propsArg,
         marker := cb.sig.ident,
         destructure := destructure,
         block := cb.block }

/-- Embedding of the output of `prefer_camel_case_for_fn_ident`: the original
function cloned, `allow(non_snake_case)` appended to its attributes, and the
body wrapped in a block that declares the zero-sized marker struct named
after the function. -/
structure BypassFn where
  attrs : List String
  vis : String
  sig : Signature
  marker : String
  block : String
deriving DecidableEq

/-- Embedding of `prefer_camel_case_for_fn_ident`. -/
def prefer_camel_case_for_fn_ident (f : ItemFn) : BypassFn :=
  { attrs := f.attrs ++ ["allow(non_snake_case)"],
    vis := f.vis,
    sig := f.sig,
    marker := f.sig.ident,
    block := f.block }

/-- The overall output of `ComponentBody::to_tokens`: either the bypassed
(name-normalized) original function, or a rewritten function together with an
optional doc-commented props struct. -/
inductive Lowered where
  | bypass (f : BypassFn)
  | lowered (props : Option (String × ItemStruct)) (fn : CompFn)
deriving DecidableEq

/-- Embedding of `ComponentBody::to_tokens`: bypass when the first parameter
is an explicit `props` ident or a struct pattern; otherwise emit the
rewritten function, preceded by the doc-commented props struct exactly when
the input list is non-empty. `none` models the receiver panics. -/
def to_tokens (cb : ItemFn) : Option Lowered :=
  if is_explicit_props_ident cb || has_struct_parameter_pattern cb then
    some (.bypass (prefer_camel_case_for_fn_ident cb))
  else do
    let fn ← comp_fn cb
    if cb.sig.inputs.isEmpty then
      pure (.lowered none fn)
    else do
      let ps ← props_struct cb
      let doc := "Properties for the [`" ++ fn.ident ++ "`] component."
      pure (.lowered (some (doc, ps)) fn)

/-- Embedding of `ElementId` (a plain index newtype in `dioxus-core`). -/
abbrev ElementId := Nat

/-- Embedding of `Attribute` from `element.rs`; the `AttributeValue` enum
lives outside the given sources, so the value is an opaque type parameter. -/
structure Attribute (V : Type) where
  name : String
  ns : Option String
  volatile : Bool
  value : V

/-- Embedding of `Listener` from `element.rs`: the mounted-node cell, the
event name, and the interior-mutable optional type-erased callback. A cell
is an `Option` field; an `FnMut(E)` callback is a state transformer
`E → S → S` over its captured state `S`. -/
structure Listener (E S : Type) where
  mounted_node : Option ElementId
  event : String
  callback : Option (E → S → S)

/-- Embedding of `VElement` from `element.rs`: the `id` and `parent`
`Cell<Option<ElementId>>` cells become `Option` fields; children stay an
opaque type parameter `C` (the `VNode` enum lives outside the given
sources). -/
structure VElement (V C E S : Type) where
  id : Option ElementId
  key : Option String
  tag : String
  ns : Option String
  parent : Option ElementId
  listeners : List (Listener E S)
  attributes : List (Attribute V)
  children : List C

/-- Modelled from the spec: construction of a fresh arena element — the `id`
and `parent` cells "start unset" (`None`); the construction sites live
outside the given sources. -/
def freshVElement (tag : String) (ns key : Option String) (ls : List (Listener E S))
    (ats : List (Attribute V)) (cs : List C) : VElement V C E S :=
  { id := none, key := key, tag := tag, ns := ns, parent := none,
    listeners := ls, attributes := ats, children := cs }

/-- Modelled from the spec: assigning a mount-time cell asserts the cell is
still `None` before assignment and fails fast otherwise (a detected
double-mount), rather than silently overwriting. -/
def assignCell (cell : Option ElementId) (v : ElementId) : Option (Option ElementId) :=
  match cell with
  | none => some (some v)
  | some _ => none

/-- Modelled from the spec: the mount operation (which lives outside the
given sources) assigns the element's `id` and `parent` cells exactly once,
failing fast on a cell that is already set. -/
def mountElement (e : VElement V C E S) (i p : ElementId) : Option (VElement V C E S) := do
  let newId ← assignCell e.id i
  let newParent ← assignCell e.parent p
  pure { e with id := newId, parent := newParent }

/-- Embedding of `EventHandler` from `element.rs`: a `RefCell` holding an
optional boxed `FnMut(T)` callback, modelled as an optional state
transformer over the callback's captured state `S`. -/
structure EventHandler (S T : Type) where
  callback : Option (T → S → S)

/-- Embedding of `EventHandler::default`: the callback slot starts empty. -/
def EventHandler.default : EventHandler S T := { callback := none }

/-- Embedding of `EventHandler::call`: if a callback is present, invoke it
once with the event; otherwise do nothing. The result pairs the updated
captured state with the list of events the callback was invoked on during
this call (the invocation trace observing "exactly once"). -/
def EventHandler.call (h : EventHandler S T) (event : T) (s : S) : S × List T :=
  match h.callback with
  | some cb => (cb event s, [event])
  | none => (s, [])

/-- Embedding of `EventHandler::release`: `self.callback.replace(None)`. -/
def EventHandler.release (_h : EventHandler S T) : EventHandler S T :=
  { callback := none }

/-- Modelled from the spec: the structural equality which Rust derives for
the generated props struct via `#[derive(PartialEq)]` (the derive expansion
lives outside the given sources). A props value is represented as the list
of its field values; two values compare equal exactly when they have the
same fields and every field compares equal. -/
def derivedPropsEq [DecidableEq A] : List A → List A → Bool
  | [], [] => true
  | x :: xs, y :: ys => decide (x = y) && derivedPropsEq xs ys
  | _, _ => false

/-! Helper functions used to state and prove the properties. -/

/-- The pattern of a typed argument (dummy for a receiver). -/
def argPat : FnArg → Pat
  | .typed pt => pt.pat
  | .receiver _ => .other ""

/-- The declared type of a typed argument (dummy for a receiver). -/
def argTy : FnArg → String
  | .typed pt => pt.ty
  | .receiver _ => ""

/-- The attributes of a typed argument (dummy for a receiver). -/
def argAttrs : FnArg → List String
  | .typed pt => pt.attrs
  | .receiver _ => []

/-- The binding name of an identifier-pattern argument, mutability removed
(dummy for other shapes). -/
def paramName (a : FnArg) : String :=
  match argPat a with
  | .ident _ n => n
  | p => renderPat p

/-- Whether an identifier-pattern argument was declared `mut`. -/
def paramIsMut (a : FnArg) : Bool :=
  match argPat a with
  | .ident m _ => m
  | _ => false

/-- The props-struct field generated for a (non-receiver) argument; total
companion of `make_prop_struct_field`. -/
def fieldOfArg (vis : String) (a : FnArg) : Field :=
  { attrs := argAttrs a, vis := vis, pat := paramName a, ty := argTy a }

/-- The destructuring binding generated for a (non-receiver) argument; total
companion of `rebind_mutability`. -/
def bindingOfArg (a : FnArg) : Binding :=
  { mutKeyword := true, pat := stripIdentMut (argPat a) }

/-- The rewritten function of a non-bypass lowering, when there is one. -/
def loweredFnOf : Lowered → Option CompFn
  | .bypass _ => none
  | .lowered _ fn => some fn

/-! Helper lemmas. -/

theorem traverseOption_eq_map (g : A → Option B) (f : A → B) (l : List A)
    (h : ∀ a ∈ l, g a = some (f a)) : traverseOption g l = some (l.map f) := by
  induction l with
  | nil => rfl
  | cons a as ih =>
    have ha : g a = some (f a) := h a (List.mem_cons_self a as)
    have has := ih (fun x hx => h x (List.mem_cons_of_mem a hx))
    simp [traverseOption, ha, has]

theorem make_prop_struct_field_typed (vis : String) (a : FnArg)
    (h : isReceiverArg a = false) :
    make_prop_struct_field a vis = some (fieldOfArg vis a) := by
  cases a with
  | receiver sp => simp [isReceiverArg] at h
  | typed pt =>
    cases hp : pt.pat <;>
      simp [make_prop_struct_field, fieldOfArg, argPat, argTy, argAttrs, paramName, hp, renderPat]

theorem rebind_mutability_typed (a : FnArg) (h : isReceiverArg a = false) :
    rebind_mutability a = some (bindingOfArg a) := by
  cases a with
  | receiver sp => simp [isReceiverArg] at h
  | typed pt => simp [rebind_mutability, bindingOfArg, argPat]

/-- Characterization of a successful validation: exactly when none of the
five defects is present. -/
theorem validate_ok_iff (f : ItemFn) :
    validate_component_fn_signature f = Except.ok () ↔
      (f.sig.output ≠ ReturnType.default ∧ f.sig.generics.lifetimeCount = 0 ∧
       f.sig.asyncness = none ∧ f.sig.constness = none ∧
       f.sig.inputs.any isReceiverArg = false) := by
  unfold validate_component_fn_signature
  by_cases h1 : f.sig.output = ReturnType.default
  · simp [h1]
  · rw [if_neg h1]
    by_cases h2 : f.sig.generics.lifetimeCount > 0
    · rw [if_pos h2]
      simp [h1]
      omega
    · rw [if_neg h2]
      have h2' : f.sig.generics.lifetimeCount = 0 := by omega
      cases ha : f.sig.asyncness with
      | some sp => simp [h1]
      | none =>
        cases hc : f.sig.constness with
        | some sp => simp [h1]
        | none =>
          by_cases h5 : f.sig.inputs.any isReceiverArg
          · simp [h5, h1, h2']
          · simp [h5, h1, h2', eq_false_of_ne_true h5]

theorem validate_ok_no_receiver (f : ItemFn)
    (hv : validate_component_fn_signature f = Except.ok ()) :
    ∀ a ∈ f.sig.inputs, isReceiverArg a = false := by
  have h := ((validate_ok_iff f).mp hv).2.2.2.2
  intro a ha
  exact Bool.eq_false_iff.mpr (List.any_eq_false.mp (by simpa using h) a ha)

/-- The fully explicit shape of a non-bypass, non-empty lowering. -/
theorem to_tokens_eq_lowered (cb : ItemFn)
    (hb1 : is_explicit_props_ident cb = false)
    (hb2 : has_struct_parameter_pattern cb = false)
    (ht : ∀ a ∈ cb.sig.inputs, isReceiverArg a = false)
    (hne : cb.sig.inputs ≠ []) :
    to_tokens cb = some (Lowered.lowered
      (some ("Properties for the [`" ++ cb.sig.ident ++ "`] component.",
        { derives := ["Props", "Clone", "PartialEq"], vis := cb.vis,
          ident := cb.sig.ident ++ "Props", generics := cb.sig.generics,
          fields := cb.sig.inputs.map (fieldOfArg cb.vis) }))
      { attrs := cb.attrs ++ ["allow(non_snake_case)"], vis := cb.vis,
        ident := cb.sig.ident, generics := cb.sig.generics,
        output := cb.sig.output,
        propsArg := some { mutable := true, name := "__props",
                           ty := cb.sig.ident ++ "Props" ++ cb.sig.generics.params },
        marker := cb.sig.ident,
        destructure := some { structIdent := cb.sig.ident ++ "Props",
                              bindings := cb.sig.inputs.map bindingOfArg },
        block := cb.block }) := by
  have hmap1 : traverseOption rebind_mutability cb.sig.inputs
      = some (cb.sig.inputs.map bindingOfArg) :=
    traverseOption_eq_map _ _ _ (fun a ha => rebind_mutability_typed a (ht a ha))
  have hmap2 : traverseOption (fun f => make_prop_struct_field f cb.vis) cb.sig.inputs
      = some (cb.sig.inputs.map (fieldOfArg cb.vis)) :=
    traverseOption_eq_map _ _ _ (fun a ha => make_prop_struct_field_typed cb.vis a (ht a ha))
  have hempty : cb.sig.inputs.isEmpty = false := by
    cases hcs : cb.sig.inputs with
    | nil => exact absurd hcs hne
    | cons a as => rfl
  unfold to_tokens comp_fn props_struct
  rw [hb1, hb2]
  simp [hmap1, hmap2, hempty]

/-- The fully explicit shape of the lowering of a zero-parameter function. -/
theorem to_tokens_eq_empty (cb : ItemFn) (h : cb.sig.inputs = []) :
    to_tokens cb = some (Lowered.lowered none
      { attrs := cb.attrs ++ ["allow(non_snake_case)"], vis := cb.vis,
        ident := cb.sig.ident, generics := cb.sig.generics,
        output := cb.sig.output,
        propsArg := none,
        marker := cb.sig.ident,
        destructure := none,
        block := cb.block }) := by
  have hb1 : is_explicit_props_ident cb = false := by
    unfold is_explicit_props_ident
    simp [h]
  have hb2 : has_struct_parameter_pattern cb = false := by
    unfold has_struct_parameter_pattern
    simp [h]
  unfold to_tokens comp_fn
  rw [hb1, hb2]
  simp [h, traverseOption]

/-- Structural equality of field lists coincides with list equality. -/
theorem derivedPropsEq_iff_eq [DecidableEq A] (xs ys : List A) :
    derivedPropsEq xs ys = true ↔ xs = ys := by
  induction xs generalizing ys with
  | nil => cases ys <;> simp [derivedPropsEq]
  | cons x xs ih =>
    cases ys with
    | nil => simp [derivedPropsEq]
    | cons y ys => simp [derivedPropsEq, ih]

/-! Concrete example component functions used as witnesses. -/

/-- Trivial generics: no lifetimes, no type parameters, no where-clause. -/
def genericsNone : Generics :=
  { lifetimeCount := 0, span := 0, params := "", whereClause := none }

/-- The spec's example component `fn Greeting(name: String, mut excited: bool)
-> Element` (second parameter declared `mut` to exercise mutability
stripping). -/
def exGreeting : ItemFn :=
  { attrs := [], vis := "pub",
    sig := { constness := none, asyncness := none, ident := "Greeting",
             generics := genericsNone,
             inputs := [FnArg.typed { attrs := [], pat := Pat.ident false "name", ty := "String" },
                        FnArg.typed { attrs := [], pat := Pat.ident true "excited", ty := "bool" }],
             inputsSpan := 1, output := ReturnType.ty "Element", outputSpan := 2 },
    block := "greeting_body" }

/-- A component `fn Foo(name: String) -> Element` whose sole parameter is not
declared `mut`. -/
def exFoo : ItemFn :=
  { attrs := [], vis := "pub",
    sig := { constness := none, asyncness := none, ident := "Foo",
             generics := genericsNone,
             inputs := [FnArg.typed { attrs := [], pat := Pat.ident false "name", ty := "String" }],
             inputsSpan := 1, output := ReturnType.ty "Element", outputSpan := 2 },
    block := "foo_body" }

/-- C1: for every component function with a valid non-empty parameter list
that matches no bypass case, the signature-lowering transform produces a
props struct with exactly one field per parameter; at every position holding
an identifier-bound parameter, the field is named by the binding name with
mutability removed, keeps the declared type, and sits at the parameter's
original index. -/
theorem props_struct_fields_match_params (cb : ItemFn)
    (hv : validate_component_fn_signature cb = Except.ok ())
    (hne : cb.sig.inputs ≠ [])
    (hb1 : is_explicit_props_ident cb = false)
    (hb2 : has_struct_parameter_pattern cb = false) :
    ∃ (d : String) (ps : ItemStruct) (fn : CompFn),
      to_tokens cb = some (Lowered.lowered (some (d, ps)) fn)
      ∧ ps.fields.length = cb.sig.inputs.length
      ∧ (∀ (i : Nat) (pt : PatType) (m : Bool) (n : String),
          cb.sig.inputs[i]? = some (FnArg.typed pt) → pt.pat = Pat.ident m n →
          ps.fields[i]? = some { attrs := pt.attrs, vis := cb.vis, pat := n, ty := pt.ty }) := by
  have ht : ∀ a ∈ cb.sig.inputs, isReceiverArg a = false := validate_ok_no_receiver cb hv
  refine ⟨_, _, _, to_tokens_eq_lowered cb hb1 hb2 ht hne, by simp, ?_⟩
  intro i pt m n hin hpat
  have hmap : (cb.sig.inputs.map (fieldOfArg cb.vis))[i]?
      = some (fieldOfArg cb.vis (FnArg.typed pt)) := by
    rw [List.getElem?_map, hin]
    rfl
  rw [hmap]
  simp [fieldOfArg, argAttrs, argTy, paramName, argPat, hpat]

/-- Witness for C1 at the concrete `Greeting` component. -/
theorem props_struct_fields_match_params_witness :
    ∃ (d : String) (ps : ItemStruct) (fn : CompFn),
      to_tokens exGreeting = some (Lowered.lowered (some (d, ps)) fn)
      ∧ ps.fields.length = exGreeting.sig.inputs.length
      ∧ (∀ (i : Nat) (pt : PatType) (m : Bool) (n : String),
          exGreeting.sig.inputs[i]? = some (FnArg.typed pt) → pt.pat = Pat.ident m n →
          ps.fields[i]? = some { attrs := pt.attrs, vis := exGreeting.vis, pat := n, ty := pt.ty }) :=
  props_struct_fields_match_params exGreeting rfl (by decide) rfl rfl

/-- C2 counterexample: for `fn Foo(name: String) -> Element`, whose sole
parameter is not declared `mut`, the generated destructuring still writes the
`mut` modifier on the binding — so `mut` is not re-added on exactly the
originally-`mut` bindings, contradicting the claim. -/
theorem rebind_adds_mut_to_immutable_param :
    paramIsMut (FnArg.typed { attrs := [], pat := Pat.ident false "name", ty := "String" }) = false
    ∧ exFoo.sig.inputs = [FnArg.typed { attrs := [], pat := Pat.ident false "name", ty := "String" }]
    ∧ (to_tokens exFoo).bind loweredFnOf
        = some
            { attrs := ["allow(non_snake_case)"], vis := "pub", ident := "Foo",
              generics := genericsNone, output := ReturnType.ty "Element",
              propsArg := some { mutable := true, name := "__props", ty := "FooProps" },
              marker := "Foo",
              destructure := some
                { structIdent := "FooProps",
                  bindings := [{ mutKeyword := true, pat := Pat.ident false "name" }] },
              block := "foo_body" } :=
  ⟨rfl, rfl, rfl⟩

/-- C2 (amended): for every lowered component with a non-empty parameter
list, the rewritten function accepts a single synthesized parameter
`__props` of the props type marked mutable, immediately destructures it into
bindings matching the original parameter patterns with mutability stripped,
re-adding the `mut` modifier on every binding (regardless of the original
parameter's mutability), before executing the original body unchanged. -/
theorem comp_fn_destructures_with_mut_on_every_binding (cb : ItemFn)
    (hv : validate_component_fn_signature cb = Except.ok ())
    (hne : cb.sig.inputs ≠ [])
    (hb1 : is_explicit_props_ident cb = false)
    (hb2 : has_struct_parameter_pattern cb = false) :
    ∃ (ps : Option (String × ItemStruct)) (fn : CompFn),
      to_tokens cb = some (Lowered.lowered ps fn)
      ∧ fn.propsArg = some { mutable := true, name := "__props",
                             ty := cb.sig.ident ++ "Props" ++ cb.sig.generics.params }
      ∧ fn.destructure = some { structIdent := cb.sig.ident ++ "Props",
                                bindings := cb.sig.inputs.map bindingOfArg }
      ∧ (∀ b ∈ cb.sig.inputs.map bindingOfArg, b.mutKeyword = true)
      ∧ (cb.sig.inputs.map bindingOfArg).map Binding.pat
          = cb.sig.inputs.map (fun a => stripIdentMut (argPat a))
      ∧ fn.block = cb.block := by
  have ht := validate_ok_no_receiver cb hv
  refine ⟨_, _, to_tokens_eq_lowered cb hb1 hb2 ht hne, rfl, rfl, ?_, ?_, rfl⟩
  · intro b hb
    rcases List.mem_map.mp hb with ⟨a, ha, rfl⟩
    rfl
  · rw [List.map_map]
    rfl

/-- Witness for the amended C2 at the concrete `Foo` component. -/
theorem comp_fn_destructures_witness :
    ∃ (ps : Option (String × ItemStruct)) (fn : CompFn),
      to_tokens exFoo = some (Lowered.lowered ps fn)
      ∧ fn.propsArg = some { mutable := true, name := "__props",
                             ty := exFoo.sig.ident ++ "Props" ++ exFoo.sig.generics.params }
      ∧ fn.destructure = some { structIdent := exFoo.sig.ident ++ "Props",
                                bindings := exFoo.sig.inputs.map bindingOfArg }
      ∧ (∀ b ∈ exFoo.sig.inputs.map bindingOfArg, b.mutKeyword = true)
      ∧ (exFoo.sig.inputs.map bindingOfArg).map Binding.pat
          = exFoo.sig.inputs.map (fun a => stripIdentMut (argPat a))
      ∧ fn.block = exFoo.block :=
  comp_fn_destructures_with_mut_on_every_binding exFoo rfl (by decide) rfl rfl

/-! Defective variants of `exFoo`, one per validation rule, plus bypass
examples. -/

/-- Like `exFoo` but with no declared return type. -/
def exNoReturn : ItemFn :=
  { attrs := [], vis := "pub",
    sig := { constness := none, asyncness := none, ident := "Foo",
             generics := genericsNone,
             inputs := [FnArg.typed { attrs := [], pat := Pat.ident false "name", ty := "String" }],
             inputsSpan := 1, output := ReturnType.default, outputSpan := 11 },
    block := "foo_body" }

/-- Like `exFoo` but with one lifetime generic parameter. -/
def exLifetime : ItemFn :=
  { attrs := [], vis := "pub",
    sig := { constness := none, asyncness := none, ident := "Foo",
             generics := { lifetimeCount := 1, span := 12, params := "", whereClause := none },
             inputs := [FnArg.typed { attrs := [], pat := Pat.ident false "name", ty := "String" }],
             inputsSpan := 1, output := ReturnType.ty "Element", outputSpan := 2 },
    block := "foo_body" }

/-- Like `exFoo` but marked `async`. -/
def exAsync : ItemFn :=
  { attrs := [], vis := "pub",
    sig := { constness := none, asyncness := some 13, ident := "Foo",
             generics := genericsNone,
             inputs := [FnArg.typed { attrs := [], pat := Pat.ident false "name", ty := "String" }],
             inputsSpan := 1, output := ReturnType.ty "Element", outputSpan := 2 },
    block := "foo_body" }

/-- Like `exFoo` but marked `const`. -/
def exConst : ItemFn :=
  { attrs := [], vis := "pub",
    sig := { constness := some 14, asyncness := none, ident := "Foo",
             generics := genericsNone,
             inputs := [FnArg.typed { attrs := [], pat := Pat.ident false "name", ty := "String" }],
             inputsSpan := 1, output := ReturnType.ty "Element", outputSpan := 2 },
    block := "foo_body" }

/-- Like `exFoo` but with a receiver-style (`self`) parameter. -/
def exReceiver : ItemFn :=
  { attrs := [], vis := "pub",
    sig := { constness := none, asyncness := none, ident := "Foo",
             generics := genericsNone,
             inputs := [FnArg.receiver 15],
             inputsSpan := 16, output := ReturnType.ty "Element", outputSpan := 2 },
    block := "foo_body" }

/-- A component whose sole parameter is an explicit `props` identifier. -/
def exPropsIdent : ItemFn :=
  { attrs := [], vis := "pub",
    sig := { constness := none, asyncness := none, ident := "Bar",
             generics := genericsNone,
             inputs := [FnArg.typed { attrs := [], pat := Pat.ident false "props", ty := "BarProps" }],
             inputsSpan := 1, output := ReturnType.ty "Element", outputSpan := 2 },
    block := "bar_body" }

/-- A component whose first parameter uses a record-destructuring pattern,
`fn Navbar(NavbarProps \x7b title \x7d: NavbarProps)`. -/
def exStructPatFn : ItemFn :=
  { attrs := [], vis := "pub",
    sig := { constness := none, asyncness := none, ident := "Navbar",
             generics := genericsNone,
             inputs := [FnArg.typed { attrs := [],
                                      pat := Pat.structPat "NavbarProps" "title",
                                      ty := "NavbarProps" }],
             inputsSpan := 1, output := ReturnType.ty "Element", outputSpan := 2 },
    block := "navbar_body" }

/-- A zero-parameter component. -/
def exApp : ItemFn :=
  { attrs := [], vis := "pub",
    sig := { constness := none, asyncness := none, ident := "App",
             generics := genericsNone,
             inputs := [],
             inputsSpan := 1, output := ReturnType.ty "Element", outputSpan := 2 },
    block := "app_body" }

/-- A component whose first parameter is named `props` but which has a second
parameter after it. -/
def exProps2 : ItemFn :=
  { attrs := [], vis := "pub",
    sig := { constness := none, asyncness := none, ident := "Baz",
             generics := genericsNone,
             inputs := [FnArg.typed { attrs := [], pat := Pat.ident false "props", ty := "BazProps" },
                        FnArg.typed { attrs := [], pat := Pat.ident false "count", ty := "usize" }],
             inputsSpan := 1, output := ReturnType.ty "Element", outputSpan := 2 },
    block := "baz_body" }

/-- C3: validation rejects each of the five invalid signature forms — no
return type, a lifetime generic parameter, an async function, a const
function, a receiver-style parameter — each independently of the others,
each with its own diagnostic message carried at the violating span; the five
messages are pairwise distinct; and a signature exhibiting none of the five
forms is accepted. -/
theorem validate_rejects_each_defect (f : ItemFn) :
    (f.sig.output = ReturnType.default →
      validate_component_fn_signature f
        = Except.error { span := f.sig.outputSpan,
                         message := "Must return a <dioxus_core::Element>" })
    ∧ (f.sig.output ≠ ReturnType.default → f.sig.generics.lifetimeCount > 0 →
      validate_component_fn_signature f
        = Except.error { span := f.sig.generics.span,
                         message := "Lifetimes are not supported in components" })
    ∧ (∀ sp : Span, f.sig.output ≠ ReturnType.default → f.sig.generics.lifetimeCount = 0 →
        f.sig.asyncness = some sp →
      validate_component_fn_signature f
        = Except.error { span := sp, message := "Async components are not supported" })
    ∧ (∀ sp : Span, f.sig.output ≠ ReturnType.default → f.sig.generics.lifetimeCount = 0 →
        f.sig.asyncness = none → f.sig.constness = some sp →
      validate_component_fn_signature f
        = Except.error { span := sp, message := "Const components are not supported" })
    ∧ (f.sig.output ≠ ReturnType.default → f.sig.generics.lifetimeCount = 0 →
        f.sig.asyncness = none → f.sig.constness = none →
        f.sig.inputs.any isReceiverArg = true →
      validate_component_fn_signature f
        = Except.error { span := f.sig.inputsSpan,
                         message := "Receiver parameters are not supported" })
    ∧ (f.sig.output ≠ ReturnType.default → f.sig.generics.lifetimeCount = 0 →
        f.sig.asyncness = none → f.sig.constness = none →
        f.sig.inputs.any isReceiverArg = false →
      validate_component_fn_signature f = Except.ok ())
    ∧ List.Pairwise (fun a b => a ≠ b)
        ["Must return a <dioxus_core::Element>",
         "Lifetimes are not supported in components",
         "Async components are not supported",
         "Const components are not supported",
         "Receiver parameters are not supported"] := by
  refine ⟨?_, ?_, ?_, ?_, ?_, ?_, by decide⟩
  · intro h1
    simp [validate_component_fn_signature, h1]
  · intro h1 h2
    simp [validate_component_fn_signature, h1, h2]
  · intro sp h1 h2 ha
    simp [validate_component_fn_signature, h1, h2, ha]
  · intro sp h1 h2 ha hc
    simp [validate_component_fn_signature, h1, h2, ha, hc]
  · intro h1 h2 ha hc h5
    simp [validate_component_fn_signature, h1, h2, ha, hc, h5]
  · intro h1 h2 ha hc h5
    simp [validate_component_fn_signature, h1, h2, ha, hc, h5]

/-- Witness for C3: each single-defect variant of `Foo` is rejected with its
own message and span, and `Foo` itself is accepted. -/
theorem validate_rejects_each_defect_witness :
    validate_component_fn_signature exNoReturn
      = Except.error { span := 11, message := "Must return a <dioxus_core::Element>" }
    ∧ validate_component_fn_signature exLifetime
      = Except.error { span := 12, message := "Lifetimes are not supported in components" }
    ∧ validate_component_fn_signature exAsync
      = Except.error { span := 13, message := "Async components are not supported" }
    ∧ validate_component_fn_signature exConst
      = Except.error { span := 14, message := "Const components are not supported" }
    ∧ validate_component_fn_signature exReceiver
      = Except.error { span := 16, message := "Receiver parameters are not supported" }
    ∧ validate_component_fn_signature exFoo = Except.ok () :=
  ⟨(validate_rejects_each_defect exNoReturn).1 rfl,
   (validate_rejects_each_defect exLifetime).2.1 (by decide) (by decide),
   (validate_rejects_each_defect exAsync).2.2.1 13 (by decide) rfl rfl,
   (validate_rejects_each_defect exConst).2.2.2.1 14 (by decide) rfl rfl rfl,
   (validate_rejects_each_defect exReceiver).2.2.2.2.1 (by decide) rfl rfl rfl rfl,
   (validate_rejects_each_defect exFoo).2.2.2.2.2.1 (by decide) rfl rfl rfl rfl⟩

/-- C4: for a function whose sole parameter is an identifier binding named
`props`, or whose first parameter is destructured with a record (struct)
pattern, lowering produces no props struct and leaves the parameter list
unchanged, applying only the display-name normalization pass (the added
`allow(non_snake_case)` attribute and the marker-struct block wrapping). -/
theorem bypass_props_ident_or_struct_pattern (cb : ItemFn)
    (h : (∃ (pt : PatType) (m : Bool),
            cb.sig.inputs = [FnArg.typed pt] ∧ pt.pat = Pat.ident m "props")
       ∨ has_struct_parameter_pattern cb = true) :
    to_tokens cb = some (Lowered.bypass (prefer_camel_case_for_fn_ident cb))
    ∧ (∀ (ps : Option (String × ItemStruct)) (fn : CompFn),
        to_tokens cb ≠ some (Lowered.lowered ps fn))
    ∧ (prefer_camel_case_for_fn_ident cb).sig = cb.sig
    ∧ (prefer_camel_case_for_fn_ident cb).attrs = cb.attrs ++ ["allow(non_snake_case)"]
    ∧ (prefer_camel_case_for_fn_ident cb).block = cb.block := by
  have hcond : (is_explicit_props_ident cb || has_struct_parameter_pattern cb) = true := by
    rcases h with ⟨pt, m, hin, hpat⟩ | hsp
    · have hex : is_explicit_props_ident cb = true := by
        unfold is_explicit_props_ident
        rw [hin]
        simp [hpat]
      simp [hex]
    · simp [hsp]
  have htok : to_tokens cb = some (Lowered.bypass (prefer_camel_case_for_fn_ident cb)) := by
    unfold to_tokens
    rw [hcond]
    rfl
  refine ⟨htok, ?_, rfl, rfl, rfl⟩
  intro ps fn hcontra
  rw [htok] at hcontra
  simp at hcontra

/-- Witness for C4 at the two concrete bypass shapes. -/
theorem bypass_props_ident_or_struct_pattern_witness :
    (to_tokens exPropsIdent = some (Lowered.bypass (prefer_camel_case_for_fn_ident exPropsIdent))
      ∧ (prefer_camel_case_for_fn_ident exPropsIdent).sig = exPropsIdent.sig)
    ∧ (to_tokens exStructPatFn = some (Lowered.bypass (prefer_camel_case_for_fn_ident exStructPatFn))
      ∧ (prefer_camel_case_for_fn_ident exStructPatFn).sig = exStructPatFn.sig) :=
  ⟨⟨(bypass_props_ident_or_struct_pattern exPropsIdent
        (Or.inl ⟨{ attrs := [], pat := Pat.ident false "props", ty := "BarProps" }, false,
                  by decide, rfl⟩)).1,
    (bypass_props_ident_or_struct_pattern exPropsIdent
        (Or.inl ⟨{ attrs := [], pat := Pat.ident false "props", ty := "BarProps" }, false,
                  by decide, rfl⟩)).2.2.1⟩,
   ⟨(bypass_props_ident_or_struct_pattern exStructPatFn (Or.inr (by decide))).1,
    (bypass_props_ident_or_struct_pattern exStructPatFn (Or.inr (by decide))).2.2.1⟩⟩

/-- C6: for a function with an empty parameter list, lowering produces no
props struct and the rewritten function still takes no synthesized props
argument — its external call contract is unchanged — while the name, output,
generics and body are carried over. -/
theorem empty_params_no_props_struct (cb : ItemFn) (h : cb.sig.inputs = []) :
    to_tokens cb = some (Lowered.lowered none
      { attrs := cb.attrs ++ ["allow(non_snake_case)"], vis := cb.vis,
        ident := cb.sig.ident, generics := cb.sig.generics,
        output := cb.sig.output,
        propsArg := none,
        marker := cb.sig.ident,
        destructure := none,
        block := cb.block }) :=
  to_tokens_eq_empty cb h

/-- Witness for C6 at the zero-parameter `App` component. -/
theorem empty_params_no_props_struct_witness :
    to_tokens exApp = some (Lowered.lowered none
      { attrs := exApp.attrs ++ ["allow(non_snake_case)"], vis := exApp.vis,
        ident := exApp.sig.ident, generics := exApp.sig.generics,
        output := exApp.sig.output,
        propsArg := none,
        marker := exApp.sig.ident,
        destructure := none,
        block := exApp.block }) :=
  empty_params_no_props_struct exApp rfl

/-- C10: the `props` bypass heuristic inspects only the first parameter — for
a function whose first parameter is an identifier binding named `props` but
which has additional parameters after it, lowering still bypasses props
synthesis: no props struct is generated and the entire multi-parameter list
is left unchanged. -/
theorem props_ident_heuristic_checks_only_first_param (cb : ItemFn)
    (pt : PatType) (m : Bool) (rest : List FnArg)
    (h1 : cb.sig.inputs = FnArg.typed pt :: rest)
    (h2 : pt.pat = Pat.ident m "props")
    (_h3 : rest ≠ []) :
    to_tokens cb = some (Lowered.bypass (prefer_camel_case_for_fn_ident cb))
    ∧ (∀ (ps : Option (String × ItemStruct)) (fn : CompFn),
        to_tokens cb ≠ some (Lowered.lowered ps fn))
    ∧ (prefer_camel_case_for_fn_ident cb).sig.inputs = cb.sig.inputs := by
  have hex : is_explicit_props_ident cb = true := by
    unfold is_explicit_props_ident
    rw [h1]
    simp [h2]
  have htok : to_tokens cb = some (Lowered.bypass (prefer_camel_case_for_fn_ident cb)) := by
    unfold to_tokens
    rw [hex]
    rfl
  refine ⟨htok, ?_, rfl⟩
  intro ps fn hcontra
  rw [htok] at hcontra
  simp at hcontra

/-- Witness for C10 at the concrete two-parameter `Baz` component whose first
parameter is named `props`. -/
theorem props_ident_heuristic_witness :
    to_tokens exProps2 = some (Lowered.bypass (prefer_camel_case_for_fn_ident exProps2))
    ∧ (prefer_camel_case_for_fn_ident exProps2).sig.inputs = exProps2.sig.inputs :=
  ⟨(props_ident_heuristic_checks_only_first_param exProps2
      { attrs := [], pat := Pat.ident false "props", ty := "BazProps" } false
      [FnArg.typed { attrs := [], pat := Pat.ident false "count", ty := "usize" }]
      (by decide) rfl (by decide)).1,
   (props_ident_heuristic_checks_only_first_param exProps2
      { attrs := [], pat := Pat.ident false "props", ty := "BazProps" } false
      [FnArg.typed { attrs := [], pat := Pat.ident false "count", ty := "usize" }]
      (by decide) rfl (by decide)).2.2⟩

/-- C5: every generated props struct derives `Clone` and `PartialEq`, and the
derived equality is structural: two props values — represented as their lists
of field values — compare equal iff every field compares equal (given the
same field count), and changing any one field value makes the two values
compare unequal. -/
theorem props_struct_equality_structural (cb : ItemFn) (s : ItemStruct)
    (h : props_struct cb = some s)
    {A : Type} [DecidableEq A] (xs ys : List A) :
    ("PartialEq" ∈ s.derives ∧ "Clone" ∈ s.derives)
    ∧ (derivedPropsEq xs ys = true ↔ xs = ys)
    ∧ (xs.length = ys.length →
        (derivedPropsEq xs ys = true ↔
          ∀ (i : Nat) (h1 : i < xs.length) (h2 : i < ys.length),
            xs.get ⟨i, h1⟩ = ys.get ⟨i, h2⟩))
    ∧ (∀ (i : Nat) (hi : i < xs.length) (v : A), v ≠ xs.get ⟨i, hi⟩ →
        derivedPropsEq xs (xs.set i v) = false) := by
  have hder : s.derives = ["Props", "Clone", "PartialEq"] := by
    unfold props_struct at h
    cases hm : traverseOption (fun f => make_prop_struct_field f cb.vis) cb.sig.inputs with
    | none =>
      rw [hm] at h
      simp at h
    | some fs =>
      rw [hm] at h
      simp at h
      rw [← h]
  refine ⟨?_, derivedPropsEq_iff_eq xs ys, ?_, ?_⟩
  · rw [hder]
    exact ⟨by simp, by simp⟩
  · intro hlen
    rw [derivedPropsEq_iff_eq]
    constructor
    · intro he i h1 h2
      subst he
      rfl
    · intro hg
      exact List.ext_get hlen hg
  · intro i hi v hv
    apply Bool.eq_false_iff.mpr
    intro htrue
    have hxe : xs = xs.set i v := (derivedPropsEq_iff_eq _ _).mp htrue
    have h1 : xs[i]? = (xs.set i v)[i]? := by rw [← hxe]
    have h2 : (xs.set i v)[i]? = some v := by simp [hi]
    have h3 : xs[i]? = some (xs.get ⟨i, hi⟩) := by simp [List.getElem?_eq_getElem hi]
    rw [h2, h3] at h1
    exact hv (Option.some.inj h1).symm

/-- The props struct generated for the `Greeting` component. -/
def exGreetingProps : ItemStruct :=
  { derives := ["Props", "Clone", "PartialEq"], vis := "pub",
    ident := "GreetingProps", generics := genericsNone,
    fields := [{ attrs := [], vis := "pub", pat := "name", ty := "String" },
               { attrs := [], vis := "pub", pat := "excited", ty := "bool" }] }

/-- Witness for C5 at the `Greeting` component and concrete field lists. -/
theorem props_struct_equality_structural_witness :
    props_struct exGreeting = some exGreetingProps
    ∧ ("PartialEq" ∈ exGreetingProps.derives ∧ "Clone" ∈ exGreetingProps.derives)
    ∧ derivedPropsEq [10, 20] [10, 20] = true
    ∧ derivedPropsEq [10, 20] [10, 99] = false := by
  have hmain := props_struct_equality_structural exGreeting exGreetingProps rfl
      ([10, 20] : List Nat) ([10, 20] : List Nat)
  have hmain2 := props_struct_equality_structural exGreeting exGreetingProps rfl
      ([10, 20] : List Nat) ([10, 99] : List Nat)
  refine ⟨rfl, hmain.1, hmain.2.1.mpr rfl, ?_⟩
  apply Bool.eq_false_iff.mpr
  intro htrue
  have hcontra := hmain2.2.1.mp htrue
  simp at hcontra

/-- C7: a virtual element's `id` and `parent` cells start unset; one mount
operation sets each exactly once, and an attempt to mount an element whose
cells are already set fails fast (a detected double-mount) instead of
silently overwriting. -/
theorem mount_sets_cells_exactly_once {V C E S : Type}
    (tag : String) (ns key : Option String) (ls : List (Listener E S))
    (ats : List (Attribute V)) (cs : List C)
    (e : VElement V C E S) (h1 : e.id = none) (h2 : e.parent = none)
    (i p : ElementId) :
    (freshVElement tag ns key ls ats cs : VElement V C E S).id = none
    ∧ (freshVElement tag ns key ls ats cs : VElement V C E S).parent = none
    ∧ mountElement e i p = some { e with id := some i, parent := some p }
    ∧ (∀ (c v : ElementId), assignCell (some c) v = none)
    ∧ (∀ (e2 : VElement V C E S), mountElement e i p = some e2 →
        ∀ (i2 p2 : ElementId), mountElement e2 i2 p2 = none) := by
  have hm : mountElement e i p = some { e with id := some i, parent := some p } := by
    unfold mountElement assignCell
    rw [h1, h2]
    rfl
  refine ⟨rfl, rfl, hm, fun c v => rfl, ?_⟩
  intro e2 he2 i2 p2
  rw [hm] at he2
  have he2' : e2 = { e with id := some i, parent := some p } := (Option.some.inj he2).symm
  subst he2'
  unfold mountElement assignCell
  rfl

/-- Witness for C7 at a concrete fresh `div` element. -/
theorem mount_sets_cells_exactly_once_witness :
    (freshVElement "div" none none ([] : List (Listener Unit Unit))
        ([] : List (Attribute Unit)) ([] : List Unit)).id = none
    ∧ (freshVElement "div" none none ([] : List (Listener Unit Unit))
        ([] : List (Attribute Unit)) ([] : List Unit)).parent = none
    ∧ mountElement (freshVElement "div" none none ([] : List (Listener Unit Unit))
        ([] : List (Attribute Unit)) ([] : List Unit)) 1 2
      = some { freshVElement "div" none none [] [] [] with id := some 1, parent := some 2 }
    ∧ (∀ (c v : ElementId), assignCell (some c) v = none)
    ∧ (∀ (e2 : VElement Unit Unit Unit Unit),
        mountElement (freshVElement "div" none none [] [] []) 1 2 = some e2 →
        ∀ (i2 p2 : ElementId), mountElement e2 i2 p2 = none) :=
  mount_sets_cells_exactly_once "div" none none [] [] []
    (freshVElement "div" none none [] [] []) rfl rfl 1 2

/-- C8: calling an event handler whose callback slot is empty — never set, or
cleared — is a no-op: the captured state is unchanged and no invocation
happens; when a callback is present, each `call` invokes it exactly once with
the given event. -/
theorem event_handler_call_contract {S T : Type}
    (h : EventHandler S T) (event : T) (s : S) :
    EventHandler.call (EventHandler.default : EventHandler S T) event s = (s, [])
    ∧ (h.callback = none → h.call event s = (s, []))
    ∧ (∀ cb : T → S → S, h.callback = some cb → h.call event s = (cb event s, [event])) := by
  refine ⟨rfl, ?_, ?_⟩
  · intro hn
    unfold EventHandler.call
    rw [hn]
  · intro cb hcb
    unfold EventHandler.call
    rw [hcb]

/-- Witness for C8 at a concrete handler over a counter state. -/
theorem event_handler_call_contract_witness :
    EventHandler.call (EventHandler.default : EventHandler Nat Nat) 5 0 = (0, [])
    ∧ EventHandler.call { callback := some (fun ev n => n + ev) } 5 0 = (5, [5]) :=
  ⟨(event_handler_call_contract (EventHandler.default : EventHandler Nat Nat) 5 0).1,
   (event_handler_call_contract
      ({ callback := some (fun ev n => n + ev) } : EventHandler Nat Nat) 5 0).2.2
      (fun ev n => n + ev) rfl⟩

/-- C9: `release` is idempotent — after one `release` the callback slot is
empty so `call` is a no-op again, and a second `release` succeeds and leaves
the slot empty. -/
theorem event_handler_release_idempotent {S T : Type}
    (h : EventHandler S T) (event : T) (s : S) :
    (EventHandler.release h).callback = none
    ∧ EventHandler.call (EventHandler.release h) event s = (s, [])
    ∧ EventHandler.release (EventHandler.release h) = EventHandler.release h := by
  exact ⟨rfl, rfl, rfl⟩

end Dioxus
